import Mathlib

/-!
Verification of the KML import pipeline of `backend/app/api/v1/routes_kml.py`.

The pipeline's own logic (coordinate parsing, document traversal, geometry
normalisation, fallback XML extraction, summary construction) is embedded as
executable Lean definitions.  Behaviour of external libraries (fastkml's
structured parse, ElementTree's raw parse, shapely polygon construction and
validity, pyproj geodesic primitives, Python float literal parsing, JSON
serialisation) is abstracted into an `Env` record of oracles, so theorems
quantify over every possible behaviour of those libraries unless stated
otherwise.  Coordinates and areas are modelled as rationals: the claims under
study concern sign, clamping and structural dataflow, not rounding.
-/

/-- A longitude/latitude pair, as produced by the coordinate parser. -/
abbrev Pt : Type := ℚ × ℚ

/-- A shapely-style simple polygon: one exterior ring and a list of holes. -/
structure SPolygon where
  exterior : List Pt
  interiors : List (List Pt)
deriving DecidableEq

/-- Geometry values reachable from a parsed placemark.  `collection` stands for
any geometry object exposing a `geoms` attribute other than MultiPolygon
(e.g. GeometryCollection, MultiLineString); `other` for geometries without one
(Point, LineString, ...).  Each carries its `geom_type` label, and `other`
carries its shapely emptiness flag, which drives Python truthiness. -/
inductive Geometry where
  | polygon (p : SPolygon)
  | multiPolygon (polys : List SPolygon)
  | collection (typeName : String) (members : List Geometry)
  | other (typeName : String) (isEmptyFlag : Bool)

/-- The `geom_type` attribute read at line 140 of the source. -/
def geomTypeName : Geometry → String
  | .polygon _ => "Polygon"
  | .multiPolygon _ => "MultiPolygon"
  | .collection t _ => t
  | .other t _ => t

/-- Python truthiness of a shapely geometry: `not geom.is_empty`. -/
def geomTruthy : Geometry → Bool
  | .polygon p => !p.exterior.isEmpty
  | .multiPolygon ps => !ps.isEmpty
  | .collection _ gs => !gs.isEmpty
  | .other _ e => !e

/-- A Python exception, distinguishing `TypeError` (caught at line 41 of the
source) from every other exception class. -/
inductive Exc where
  | typeError
  | otherError (msg : String)
deriving DecidableEq

/-- Possible shapes of a container's `features` attribute as seen by
`iter_features`: missing entirely, a callable that returns a list or raises,
or a plain value whose enumeration by `list(...)` succeeds or raises. -/
inductive FAttrKind where
  | absent
  | callOk
  | callRaises (e : Exc)
  | plainOk
  | plainRaises (e : Exc)

/-- A fastkml-style feature node: optional geometry, optional `name`, and a
`features` attribute of some shape.  The `children` list is what a successful
enumeration returns. -/
inductive Feature where
  | mk (geometry : Option Geometry) (name : Option String) (fkind : FAttrKind)
      (children : List Feature)

def Feature.geometry : Feature → Option Geometry
  | .mk g _ _ _ => g

def Feature.name : Feature → Option String
  | .mk _ n _ _ => n

def Feature.fkind : Feature → FAttrKind
  | .mk _ _ k _ => k

def Feature.children : Feature → List Feature
  | .mk _ _ _ ch => ch

/-- An ElementTree element: namespaced tag, optional text, child elements. -/
inductive Xml where
  | el (tag : String) (text : Option String) (children : List Xml)

def Xml.tag : Xml → String
  | .el t _ _ => t

def Xml.text : Xml → Option String
  | .el _ tx _ => tx

def Xml.children : Xml → List Xml
  | .el _ _ ch => ch

/-- The raw uploaded document body. -/
abbrev Bytes : Type := List Nat

/-- A persisted parcel record (`Paddock(name=..., area_ha=..., polygon_geojson=...)`). -/
structure Paddock where
  name : String
  area_ha : ℚ
  polygon_geojson : String

/-- The structured result returned by the import route. -/
structure Summary where
  imported : Nat
  placemarks : Nat
  polygon_placemarks : Nat
  non_polygon_placemarks : Nat
  geom_types : List (String × Nat)

/-- Observable outcome of a successful import: the summary together with the
sequence of parcels handed to the persistence layer. -/
structure ImportOut where
  summary : Summary
  paddocks : List Paddock

/-- Errors escaping `import_kml`: an HTTPException with a detail string, or an
exception that no handler in the function catches. -/
inductive ImpErr where
  | badRequest (detail : String)
  | uncaughtExc (e : Exc)

/-- Oracles for every external-library call the pipeline makes. -/
structure Env where
  /-- `kml.KML().from_string(data)`: the fastkml structured parse; an error is
  the exception message interpolated into the HTTP 400 detail. -/
  fromString : Bytes → Except String Feature
  /-- `ET.fromstring(data)` on the raw bytes; `.error` is an `ET.ParseError`. -/
  etFromBytes : Bytes → Except Unit Xml
  /-- `ET.fromstring(data.decode("utf-8", errors="ignore"))`; `none` is any
  exception (the source catches all of them there). -/
  etFromDecoded : Bytes → Option Xml
  /-- `geod.geometry_area_perimeter(geometry)` first component; `.error` is any
  exception (caught at line 18 of the source). -/
  geometry_area_perimeter : Geometry → Except Unit ℚ
  /-- `geod.polygon_area_perimeter(lons, lats)` first component: the signed
  geodesic area of one ring given its coordinate list. -/
  polygon_area_perimeter : List Pt → ℚ
  /-- Whether `shapely Polygon(outer, holes)` constructs without raising. -/
  shapelyPolygonOk : List Pt → List (List Pt) → Bool
  /-- shapely `poly.is_valid`. -/
  is_valid : SPolygon → Bool
  /-- shapely `poly.is_empty`. -/
  is_empty : SPolygon → Bool
  /-- Python `float(s)`: `none` when `float` raises `ValueError`. -/
  pyFloat : String → Option ℚ
  /-- `json.dumps(mapping(poly))`. -/
  dumpsMapping : SPolygon → String

/- ---------------------------------------------------------------------------
Python string primitives, implemented structurally so they compute in proofs.
--------------------------------------------------------------------------- -/

/-- Python `str` whitespace (the characters `str.split()` and `str.strip()`
treat as separators). -/
def pyIsSpace (c : Char) : Bool :=
  c = ' ' || c = '\t' || c = '\n' || c = '\r' || c.toNat = 11 || c.toNat = 12

/-- Worker for `pySplitWs`. -/
def pySplitWsAux : List Char → List Char → List String
  | [], acc => if acc.isEmpty then [] else [String.mk acc.reverse]
  | c :: rest, acc =>
    if pyIsSpace c then
      (if acc.isEmpty then [] else [String.mk acc.reverse]) ++ pySplitWsAux rest []
    else pySplitWsAux rest (c :: acc)

/-- Python `s.split()` with no argument: split on runs of whitespace, never
producing empty tokens. -/
def pySplitWs (s : String) : List String :=
  pySplitWsAux s.data []

/-- Worker for `pySplitChar`. -/
def pySplitCharAux (sep : Char) : List Char → List Char → List String
  | [], acc => [String.mk acc.reverse]
  | c :: rest, acc =>
    if c = sep then String.mk acc.reverse :: pySplitCharAux sep rest []
    else pySplitCharAux sep rest (c :: acc)

/-- Python `s.split(sep)` for a one-character separator: keeps empty parts and
yields `[""]` on empty input. -/
def pySplitChar (sep : Char) (s : String) : List String :=
  pySplitCharAux sep s.data []

/-- Python `s.strip()`. -/
def pyStrip (s : String) : String :=
  String.mk (((s.data.dropWhile pyIsSpace).reverse.dropWhile pyIsSpace).reverse)

/-- ASCII lowering of one character, as `str.lower()` does on ASCII input. -/
def pyLowerChar (c : Char) : Char :=
  if 65 ≤ c.toNat && c.toNat ≤ 90 then Char.ofNat (c.toNat + 32) else c

/-- Python `s.lower()` (ASCII fragment, all that filenames need here). -/
def pyLower (s : String) : String :=
  String.mk (s.data.map pyLowerChar)

/-- Python `s.endswith(suf)`. -/
def pyEndsWith (s suf : String) : Bool :=
  suf.data.isSuffixOf s.data

/- ---------------------------------------------------------------------------
Coordinate parser (`_parse_coordinates`, source lines 66-81).
--------------------------------------------------------------------------- -/

/-- One iteration of the `_parse_coordinates` loop body: split a token on
commas; skip it when fewer than two parts or when either of the first two
parts fails `float(...)`; otherwise keep `(lon, lat)`, discarding altitude. -/
def parseChunk (pf : String → Option ℚ) (chunk : String) : Option Pt :=
  let parts := pySplitChar ',' chunk
  if parts.length < 2 then none
  else
    match pf (parts.getD 0 ""), pf (parts.getD 1 "") with
    | some lon, some lat => some (lon, lat)
    | _, _ => none

/-- The ring-closing step at source lines 79-80: if the list is non-empty and
its first and last points differ, append the first point. -/
def closeRing (pts : List Pt) : List Pt :=
  match pts.head?, pts.getLast? with
  | some a, some b => if a ≠ b then pts ++ [a] else pts
  | _, _ => pts

/-- `_parse_coordinates(text)`, source lines 66-81. -/
def _parse_coordinates (pf : String → Option ℚ) (text : String) : List Pt :=
  if text = "" then []
  else closeRing ((pySplitWs (pyStrip text)).filterMap (parseChunk pf))

/- ---------------------------------------------------------------------------
Document walker (`iter_features` / `iter_placemarks`, source lines 32-51).
--------------------------------------------------------------------------- -/

/-- `iter_features(container)`, source lines 32-43.  `getattr` with a default
yields `[]` when the attribute is absent; a callable attribute is called under
a handler for every exception; a non-callable one is enumerated under a
handler for `TypeError` only, so any other exception escapes. -/
def iter_features (c : Feature) : Except Exc (List Feature) :=
  match c.fkind with
  | .absent => .ok []
  | .callOk => .ok c.children
  | .callRaises _ => .ok []
  | .plainOk => .ok c.children
  | .plainRaises .typeError => .ok []
  | .plainRaises (.otherError m) => .error (.otherError m)

mutual

/-- `iter_placemarks(container)`, source lines 45-51, as the strict semantics
of the generator: the list of features yielded before the generator finishes
or raises, paired with the escaping exception if any. -/
def iter_placemarks (c : Feature) : List Feature × Option Exc :=
  match h : iter_features c with
  | .error e => ([], some e)
  | .ok fs => walkFeats fs
termination_by sizeOf c
decreasing_by
  obtain ⟨g, n, k, ch⟩ := c
  have hpos : 0 < sizeOf ch := by cases ch <;> simp
  have hch : sizeOf ch < sizeOf (Feature.mk g n k ch) := by simp
  have hnil : sizeOf ([] : List Feature) < sizeOf (Feature.mk g n k ch) := by
    simp
    omega
  cases k with
  | absent => simp [iter_features, Feature.fkind] at h; subst h; exact hnil
  | callOk => simp [iter_features, Feature.fkind, Feature.children] at h; subst h; exact hch
  | callRaises e => simp [iter_features, Feature.fkind] at h; subst h; exact hnil
  | plainOk => simp [iter_features, Feature.fkind, Feature.children] at h; subst h; exact hch
  | plainRaises e =>
    cases e with
    | typeError => simp [iter_features, Feature.fkind] at h; subst h; exact hnil
    | otherError m => simp [iter_features, Feature.fkind] at h

/-- The `for f in iter_features(container)` loop body of `iter_placemarks`:
yield `f` when it carries geometry, then recurse into it. -/
def walkFeats : List Feature → List Feature × Option Exc
  | [] => ([], none)
  | f :: rest =>
    let self : List Feature := if f.geometry.isSome then [f] else []
    match iter_placemarks f with
    | (sub, some e) => (self ++ sub, some e)
    | (sub, none) =>
      match walkFeats rest with
      | (tail, e) => (self ++ sub ++ tail, e)
termination_by l => sizeOf l
decreasing_by
  all_goals simp
  all_goals omega

end

/- ---------------------------------------------------------------------------
Geometry normaliser (`polygonish_geoms`, source lines 53-61).
--------------------------------------------------------------------------- -/

mutual

/-- `polygonish_geoms(g)`, source lines 53-61.  A member of a shapely
MultiPolygon is a Polygon, so the recursive call on it yields that member
alone. -/
def polygonish_geoms : Geometry → List SPolygon
  | .polygon p => [p]
  | .multiPolygon ps => ps.flatMap (fun p => [p])
  | .collection _ gs => polygonishList gs
  | .other _ _ => []

/-- The `for sub in g.geoms: yield from polygonish_geoms(sub)` loop. -/
def polygonishList : List Geometry → List SPolygon
  | [] => []
  | g :: gs => polygonish_geoms g ++ polygonishList gs

end

/- ---------------------------------------------------------------------------
Geodesic area engine (`geodesic_area_m2`, source lines 14-30).
--------------------------------------------------------------------------- -/

/-- The nested `ring_area(coords)` helper at source lines 21-24. -/
def ring_area (env : Env) (coords : List Pt) : ℚ :=
  env.polygon_area_perimeter coords

/-- The Polygon branch of the fallback at source lines 25-27: unsigned
exterior area (zero for a falsy exterior ring) minus the sum of unsigned hole
areas, clamped at zero. -/
def geodesicPolygonFallback (env : Env) (p : SPolygon) : ℚ :=
  let ext : ℚ := if p.exterior.isEmpty then 0 else |ring_area env p.exterior|
  let holes : ℚ := (p.interiors.map (fun r => |ring_area env r|)).sum
  max (ext - holes) 0

/-- `geodesic_area_m2` specialised to a Polygon argument; this is exactly what
the recursive call at source line 29 computes for each MultiPolygon member. -/
def geodesicPolygonArea (env : Env) (p : SPolygon) : ℚ :=
  match env.geometry_area_perimeter (.polygon p) with
  | .ok a => |a|
  | .error _ => geodesicPolygonFallback env p

/-- `geodesic_area_m2(geometry)`, source lines 14-30. -/
def geodesic_area_m2 (env : Env) (g : Geometry) : ℚ :=
  match env.geometry_area_perimeter g with
  | .ok a => |a|
  | .error _ =>
    match g with
    | .polygon p => geodesicPolygonFallback env p
    | .multiPolygon ps => (ps.map (fun p => geodesicPolygonArea env p)).sum
    | _ => 0

/- ---------------------------------------------------------------------------
Raw XML fallback (`xml_fallback_extract_polygons`, source lines 63-111).
--------------------------------------------------------------------------- -/

/-- The `kml` namespace entry of `KML_NS`, as ElementTree expands it. -/
def kmlNS : String := "{http://www.opengis.net/kml/2.2}"

def placemarkTag : String := "{http://www.opengis.net/kml/2.2}Placemark"
def nameTag : String := "{http://www.opengis.net/kml/2.2}name"
def polygonTag : String := "{http://www.opengis.net/kml/2.2}Polygon"
def outerBoundaryTag : String := "{http://www.opengis.net/kml/2.2}outerBoundaryIs"
def innerBoundaryTag : String := "{http://www.opengis.net/kml/2.2}innerBoundaryIs"
def linearRingTag : String := "{http://www.opengis.net/kml/2.2}LinearRing"
def coordinatesTag : String := "{http://www.opengis.net/kml/2.2}coordinates"

mutual

/-- All proper descendants of an element in document (pre)order, the scope of
an ElementTree `.//` query. -/
def Xml.descendants : Xml → List Xml
  | .el _ _ ch => descList ch

/-- Pre-order descendant enumeration of a forest. -/
def descList : List Xml → List Xml
  | [] => []
  | c :: rest => c :: (Xml.descendants c ++ descList rest)

end

/-- `element.findall('.//tag')`. -/
def findallDesc (x : Xml) (t : String) : List Xml :=
  x.descendants.filter (fun c => c.tag = t)

/-- Direct children carrying a given tag, in document order. -/
def childrenTagged (x : Xml) (t : String) : List Xml :=
  x.children.filter (fun c => c.tag = t)

/-- `element.find('tag')`: first direct child with the tag. -/
def findChild (x : Xml) (t : String) : Option Xml :=
  (childrenTagged x t).head?

/-- `element.findall('a/b/c')`: all matches of the three-step child path, in
document order. -/
def findallPath3 (x : Xml) (a b c : String) : List Xml :=
  (childrenTagged x a).flatMap fun e =>
    (childrenTagged e b).flatMap fun f => childrenTagged f c

/-- `element.find('a/b/c')`: first match of the three-step child path. -/
def findPath3 (x : Xml) (a b c : String) : Option Xml :=
  (findallPath3 x a b c).head?

/-- Python truthiness of `el.text and el.text.strip()`, the guard at source
lines 98 and 103. -/
def textNonBlank : Option String → Bool
  | none => false
  | some t => t != "" && pyStrip t != ""

/-- The body of the `for poly_el in pm.findall('.//kml:Polygon')` loop, source
lines 96-110: read the outer ring, collect hole rings, construct the shapely
polygon under an exception handler, and keep it only when valid and
non-empty. -/
def polygonsFromPolyEl (env : Env) (nm : Option String) (poly_el : Xml) :
    List (Option String × SPolygon) :=
  match findPath3 poly_el outerBoundaryTag linearRingTag coordinatesTag with
  | none => []
  | some outer_el =>
    if !textNonBlank outer_el.text then []
    else
      let outer := _parse_coordinates env.pyFloat (outer_el.text.getD "")
      let holes :=
        (findallPath3 poly_el innerBoundaryTag linearRingTag coordinatesTag).filterMap
          fun hole_el =>
            if textNonBlank hole_el.text then
              some (_parse_coordinates env.pyFloat (hole_el.text.getD ""))
            else none
      if env.shapelyPolygonOk outer holes then
        let poly : SPolygon := ⟨outer, holes⟩
        if env.is_valid poly && !env.is_empty poly then [(nm, poly)] else []
      else []

/-- The body of the `for pm in placemarks` loop, source lines 93-110: the
display name is the `name` child's text when that child exists (which may be
`None`), and the fixed placeholder otherwise. -/
def placemarkPolys (env : Env) (pm : Xml) : List (Option String × SPolygon) :=
  let nm : Option String :=
    match findChild pm nameTag with
    | some name_el => name_el.text
    | none => some "Unnamed paddock"
  (findallDesc pm polygonTag).flatMap (polygonsFromPolyEl env nm)

/-- `xml_fallback_extract_polygons(data)`, source lines 83-111. -/
def xml_fallback_extract_polygons (env : Env) (data : Bytes) :
    List (Option String × SPolygon) :=
  let root? : Option Xml :=
    match env.etFromBytes data with
    | .ok root => some root
    | .error _ => env.etFromDecoded data
  match root? with
  | none => []
  | some root => (findallDesc root placemarkTag).flatMap (placemarkPolys env)

/- ---------------------------------------------------------------------------
Import orchestration (`import_kml`, source lines 115-197).
--------------------------------------------------------------------------- -/

/-- Python `value or default` on an optional string: the default replaces both
a missing value and the empty string. -/
def pyOrStr : Option String → String → String
  | none, d => d
  | some t, d => if t = "" then d else t

/-- `counts[k] = counts.get(k, 0) + 1` on an insertion-ordered dict. -/
def bumpCount (m : List (String × Nat)) (k : String) : List (String × Nat) :=
  if m.any (fun kv => kv.1 = k) then
    m.map (fun kv => if kv.1 = k then (kv.1, kv.2 + 1) else kv)
  else m ++ [(k, 1)]

/-- Accumulator of the primary loop at source lines 128-132, extended with the
parcels handed to `session.add`. -/
structure PState where
  imported : Nat
  total_placemarks : Nat
  polygon_placemarks : Nat
  non_polygon_placemarks : Nat
  geom_type_counts : List (String × Nat)
  paddocks : List Paddock

def initPState : PState := ⟨0, 0, 0, 0, [], []⟩

/-- The inner `for idx, poly in enumerate(polys)` loop at source lines
148-153: one parcel per polygon, named with a 1-based index suffix exactly
when the placemark decomposed into more than one polygon. -/
def placemarkParcels (env : Env) (name : String) (polys : List SPolygon) :
    List Paddock :=
  polys.enum.map fun ip =>
    { name := name ++ (if polys.length > 1 then " " ++ toString (ip.1 + 1) else "")
      area_ha := geodesic_area_m2 env (.polygon ip.2) / 10000
      polygon_geojson := env.dumpsMapping ip.2 }

/-- The body of the `for placemark in iter_placemarks(doc)` loop, source lines
135-153. -/
def step (env : Env) (st : PState) (placemark : Feature) : PState :=
  match placemark.geometry with
  | none => st
  | some geom =>
    if !geomTruthy geom then st
    else
      let st1 : PState :=
        { st with
          total_placemarks := st.total_placemarks + 1
          geom_type_counts := bumpCount st.geom_type_counts (geomTypeName geom) }
      let name := pyOrStr placemark.name "Unnamed paddock"
      let polys := polygonish_geoms geom
      if polys.isEmpty then
        { st1 with non_polygon_placemarks := st1.non_polygon_placemarks + 1 }
      else
        { st1 with
          polygon_placemarks := st1.polygon_placemarks + 1
          paddocks := st1.paddocks ++ placemarkParcels env name polys
          imported := st1.imported + polys.length }

/-- State of the counters after the primary loop has consumed every feature
the walker yielded. -/
def primaryState (env : Env) (doc : Feature) : PState :=
  ((iter_placemarks doc).1).foldl (step env) initPState

/-- One parcel of the fallback loop at source lines 160-163, where `idx` is
the 0-based position in the whole fallback result list. -/
def fallbackPaddock (env : Env) (idx : Nat) (nm : Option String) (poly : SPolygon) :
    Paddock :=
  { name := pyOrStr nm ("Paddock " ++ toString (idx + 1))
    area_ha := geodesic_area_m2 env (.polygon poly) / 10000
    polygon_geojson := env.dumpsMapping poly }

/-- `len(ET.fromstring(data).findall('.//kml:Placemark', KML_NS))`, line 167. -/
def countPlacemarks (root : Xml) : Nat :=
  (findallDesc root placemarkTag).length

/-- `import_kml`, source lines 115-197, from the filename check through the
returned summary.  `session.add`/`commit` effects are collected in
`ImportOut.paddocks`. -/
def import_kml (env : Env) (filename : String) (data : Bytes) :
    Except ImpErr ImportOut :=
  if !pyEndsWith (pyLower filename) ".kml" then
    .error (.badRequest "Only .kml files allowed")
  else
    match env.fromString data with
    | .error e => .error (.badRequest ("Invalid KML: " ++ e))
    | .ok doc =>
      let st := primaryState env doc
      match (iter_placemarks doc).2 with
      | some e => .error (.uncaughtExc e)
      | none =>
        if st.imported = 0 then
          let xml_polys := xml_fallback_extract_polygons env data
          let fbPaddocks :=
            xml_polys.enum.map fun inp => fallbackPaddock env inp.1 inp.2.1 inp.2.2
          let imported := xml_polys.length
          let total :=
            match env.etFromBytes data with
            | .ok root => countPlacemarks root
            | .error _ => st.total_placemarks
          .ok
            { summary :=
                { imported := imported
                  placemarks := total
                  polygon_placemarks := imported
                  non_polygon_placemarks := total - imported
                  geom_types := [("Polygon", imported)] }
              paddocks := st.paddocks ++ fbPaddocks }
        else
          .ok
            { summary :=
                { imported := st.imported
                  placemarks := st.total_placemarks
                  polygon_placemarks := st.polygon_placemarks
                  non_polygon_placemarks := st.non_polygon_placemarks
                  geom_types := st.geom_type_counts }
              paddocks := st.paddocks }

/- ---------------------------------------------------------------------------
Spec-modelled external primitive and concrete fixtures used by witnesses.
--------------------------------------------------------------------------- -/

/-- Modelled from the spec: the primary geodesic method of pyproj (spec §4.6),
"a closed-form geodesic area algorithm over the outer ring combined with
subtraction of each hole's geodesic area (holes computed the same way,
independently)" — pyproj itself is a third-party library whose code is not
among the repository sources, so its polygon case is taken from the spec's
words over an arbitrary single-ring area primitive `ring`. -/
def specPrimaryArea (ring : List Pt → ℚ) : Geometry → Except Unit ℚ
  | .polygon p => .ok (|ring p.exterior| - (p.interiors.map (fun r => |ring r|)).sum)
  | _ => .error ()

/-- A default oracle assignment for fields a given statement does not care
about. -/
def baseEnv : Env where
  fromString := fun _ => .error "no document"
  etFromBytes := fun _ => .error ()
  etFromDecoded := fun _ => none
  geometry_area_perimeter := fun _ => .ok 0
  polygon_area_perimeter := fun _ => 0
  shapelyPolygonOk := fun _ _ => true
  is_valid := fun _ => true
  is_empty := fun _ => false
  pyFloat := fun _ => none
  dumpsMapping := fun _ => ""

/-- Environment whose pyproj oracles follow the spec-modelled primary (or
always raise, exercising the in-source fallback) over the ring primitive. -/
def specGeodEnv (ring : List Pt → ℚ) (primaryOk : Bool) : Env :=
  { baseEnv with
    polygon_area_perimeter := ring
    geometry_area_perimeter :=
      if primaryOk then specPrimaryArea ring else fun _ => .error () }

/-- A `float(...)` oracle understanding the literals used in the fixtures. -/
def coordPf : String → Option ℚ := fun s =>
  if s = "0" then some 0 else if s = "1" then some 1 else if s = "2" then some 2 else none

/-- A placemark feature carrying a LineString geometry. -/
def lineFeat : Feature := .mk (some (.other "LineString" false)) (some "path") .absent []

/-- A parsed document whose only placemark carries LineString geometry. -/
def docLine : Feature := .mk none none .callOk [lineFeat]

/-- A parsed document with no features at all. -/
def docEmpty : Feature := .mk none none .absent []

/-- A container whose `features` attribute is a non-callable object whose
enumeration raises an exception other than `TypeError`. -/
def badContainer : Feature := .mk none none (.plainRaises (.otherError "ValueError")) []

/-- Environment for the import-level witnesses: the structured parse succeeds
and returns `docLine`; the raw bytes do not parse as XML. -/
def env0 : Env := { baseEnv with fromString := fun _ => .ok docLine }

/-- Raw XML fixture: one Placemark holding an empty `name` element (text
`None`) and one triangle Polygon. -/
def xmlC9 : Xml :=
  .el (kmlNS ++ "kml") none
    [.el placemarkTag none
      [.el nameTag none [],
       .el polygonTag none
         [.el outerBoundaryTag none
           [.el linearRingTag none
             [.el coordinatesTag (some "0,0 1,0 1,1") []]]]]]

/-- The polygon the fallback extracts from `xmlC9`. -/
def polyC9 : SPolygon := ⟨[(0, 0), (1, 0), (1, 1), (0, 0)], []⟩

/-- Environment for the blank-name counterexample: the structured parse
succeeds with an empty document, so the fallback runs on `xmlC9`. -/
def cenv9 : Env :=
  { baseEnv with
    fromString := fun _ => .ok docEmpty
    etFromBytes := fun _ => .ok xmlC9
    pyFloat := coordPf }

/-- A two-member MultiPolygon placemark named "Block". -/
def pBlockA : SPolygon := ⟨[(0, 0), (1, 0), (1, 1), (0, 0)], []⟩

def pBlockB : SPolygon := ⟨[(2, 2), (3, 2), (3, 3), (2, 2)], []⟩

def pmBlock : Feature :=
  .mk (some (.multiPolygon [pBlockA, pBlockB])) (some "Block") .absent []

/- ---------------------------------------------------------------------------
Helper lemmas.
--------------------------------------------------------------------------- -/

theorem closeRing_head_eq_getLast (l : List Pt) (hne : l ≠ []) :
    (closeRing l).head? = (closeRing l).getLast? := by
  match l with
  | [] => exact absurd rfl hne
  | a :: t =>
    rw [closeRing]
    have hb : (a :: t).getLast?.isSome := by
      rw [List.getLast?_isSome]
      simp
    obtain ⟨b, hb⟩ := Option.isSome_iff_exists.mp hb
    rw [hb]
    simp only [List.head?_cons]
    by_cases hab : a = b
    · simp [hab, ← hb]
    · simp only [ne_eq, hab, not_false_iff, if_true]
      rw [List.getLast?_concat]
      simp

/-- C6: normalising a geometry that is already a simple Polygon yields exactly
the one-element sequence holding that polygon. -/
theorem polygonish_identity_on_polygons (p : SPolygon) :
    polygonish_geoms (.polygon p) = [p] := rfl

/-- C4: for every environment (hence every behaviour of the pyproj oracles)
and every geometry, `geodesic_area_m2` returns a non-negative value. -/
theorem geodesic_area_nonneg (env : Env) (g : Geometry) :
    0 ≤ geodesic_area_m2 env g := by
  have hfb : ∀ p, 0 ≤ geodesicPolygonFallback env p := fun p => le_max_right _ 0
  have hpa : ∀ p, 0 ≤ geodesicPolygonArea env p := by
    intro p
    unfold geodesicPolygonArea
    cases hE : env.geometry_area_perimeter (.polygon p) with
    | ok a => exact abs_nonneg a
    | error e => exact hfb p
  unfold geodesic_area_m2
  cases hE : env.geometry_area_perimeter g with
  | ok a => exact abs_nonneg a
  | error e =>
    cases g with
    | polygon p => exact hfb p
    | multiPolygon ps =>
      refine List.sum_nonneg ?_
      intro x hx
      obtain ⟨p, _, rfl⟩ := List.mem_map.mp hx
      exact hpa p
    | collection t gs => exact le_refl 0
    | other t e' => exact le_refl 0

/-- C3: behaviour of the coordinate parser, for every float oracle `pf` and
every input text: empty input yields the empty sequence; the output is the
ring closure of the per-token parse (tokens that do not split into at least
two comma-separated parts both accepted by `float` are skipped, survivors
contribute exactly their `(lon, lat)` pair); and a non-empty result has equal
first and last points. -/
theorem parse_coordinates_spec (pf : String → Option ℚ) (text : String) :
    _parse_coordinates pf "" = ([] : List Pt)
    ∧ _parse_coordinates pf text
        = closeRing ((pySplitWs (pyStrip text)).filterMap (parseChunk pf))
    ∧ (_parse_coordinates pf text ≠ [] →
        (_parse_coordinates pf text).head? = (_parse_coordinates pf text).getLast?) := by
  refine ⟨rfl, ?_, ?_⟩
  · unfold _parse_coordinates
    by_cases h : text = ""
    · subst h
      rfl
    · rw [if_neg h]
  · intro hne
    unfold _parse_coordinates at *
    by_cases h : text = ""
    · rw [if_pos h] at hne
      exact absurd rfl hne
    · rw [if_neg h] at *
      apply closeRing_head_eq_getLast
      intro hnil
      rw [hnil] at hne
      exact hne rfl

theorem parse_coordinates_spec_witness :
    _parse_coordinates coordPf "1,2 2,1" ≠ []
    ∧ (_parse_coordinates coordPf "1,2 2,1").head?
        = (_parse_coordinates coordPf "1,2 2,1").getLast? :=
  ⟨by decide, (parse_coordinates_spec coordPf "1,2 2,1").2.2 (by decide)⟩

/-- C8 (amended): the walker's child enumeration never propagates a failure —
and treats the node as having zero children — when the `features` capability
is absent, when it is callable and raises anything, or when it is non-callable
and its enumeration raises `TypeError`; but a non-callable enumeration raising
any other exception class propagates out of `iter_features`. -/
theorem walker_enumeration_amended (f : Feature) :
    ((∀ m, f.fkind ≠ .plainRaises (.otherError m)) → ∃ l, iter_features f = .ok l)
    ∧ ((f.fkind = .absent ∨ (∃ e, f.fkind = .callRaises e)
          ∨ f.fkind = .plainRaises .typeError) → iter_features f = .ok [])
    ∧ (∀ m, f.fkind = .plainRaises (.otherError m) →
        iter_features f = .error (.otherError m)) := by
  obtain ⟨g, n, k, ch⟩ := f
  refine ⟨?_, ?_, ?_⟩
  · intro hno
    cases k with
    | absent => exact ⟨[], rfl⟩
    | callOk => exact ⟨ch, rfl⟩
    | callRaises e => exact ⟨[], rfl⟩
    | plainOk => exact ⟨ch, rfl⟩
    | plainRaises e =>
      cases e with
      | typeError => exact ⟨[], rfl⟩
      | otherError m => exact absurd rfl (hno m)
  · rintro (hk | ⟨e, hk⟩ | hk) <;>
      simp only [Feature.fkind] at hk <;> subst hk <;> rfl
  · intro m hk
    simp only [Feature.fkind] at hk
    subst hk
    rfl

theorem walker_enumeration_amended_witness :
    iter_features (.mk none none (.callRaises (.otherError "boom")) []) = .ok [] :=
  (walker_enumeration_amended
    (.mk none none (.callRaises (.otherError "boom")) [])).2.1
    (Or.inr (Or.inl ⟨.otherError "boom", rfl⟩))

/-- C8 (counterexample): a container whose non-callable `features` value
raises a `ValueError` during enumeration makes `iter_features` propagate that
exception instead of treating the node as having zero children. -/
theorem walker_enumeration_counterexample :
    iter_features badContainer = .error (.otherError "ValueError")
    ∧ (∀ l, iter_features badContainer ≠ .ok l)
    ∧ (iter_placemarks badContainer).2 = some (.otherError "ValueError") :=
  ⟨rfl, fun _ h => Except.noConfusion h,
    by simp [iter_placemarks, iter_features, badContainer, Feature.fkind]⟩

/-- C5: with the pyproj primitives either following the spec-modelled primary
method or raising (which exercises the in-source ring fallback), adding a hole
ring never increases the computed area, for every polygon whose hole areas
together stay within the exterior's area (the arithmetic content of the
claim's validity requirement: a hole of a valid polygon lies inside its
exterior). -/
theorem geodesic_area_hole_monotone (ring : List Pt → ℚ) (primaryOk : Bool)
    (ext hole : List Pt) (holes : List (List Pt))
    (hvalid : ((hole :: holes).map (fun r => |ring r|)).sum ≤ |ring ext|) :
    geodesic_area_m2 (specGeodEnv ring primaryOk) (.polygon ⟨ext, holes ++ [hole]⟩)
      ≤ geodesic_area_m2 (specGeodEnv ring primaryOk) (.polygon ⟨ext, holes⟩) := by
  have hS : 0 ≤ (holes.map (fun r => |ring r|)).sum :=
    List.sum_nonneg (by
      intro x hx
      obtain ⟨r, _, rfl⟩ := List.mem_map.mp hx
      exact abs_nonneg _)
  have hH : 0 ≤ |ring hole| := abs_nonneg _
  rw [List.map_cons, List.sum_cons] at hvalid
  cases primaryOk with
  | true =>
    simp only [geodesic_area_m2, specGeodEnv, specPrimaryArea, if_true,
      List.map_append, List.sum_append, List.map_cons, List.sum_cons,
      List.map_nil, List.sum_nil, add_zero]
    set E : ℚ := |ring ext| with hE
    set S : ℚ := (holes.map (fun r => |ring r|)).sum with hS2
    set H : ℚ := |ring hole| with hH2
    rw [abs_of_nonneg (show (0 : ℚ) ≤ E - (S + H) by linarith),
      abs_of_nonneg (show (0 : ℚ) ≤ E - S by linarith)]
    linarith
  | false =>
    simp only [geodesic_area_m2, specGeodEnv, if_false, geodesicPolygonFallback,
      ring_area, List.map_append, List.sum_append, List.map_cons, List.sum_cons,
      List.map_nil, List.sum_nil, add_zero]
    refine max_le_max ?_ le_rfl
    apply sub_le_sub_left
    linarith

theorem geodesic_area_hole_monotone_witness :
    geodesic_area_m2
        (specGeodEnv (fun r => if r.length = 5 then 16 else 1) true)
        (.polygon ⟨[(0, 0), (4, 0), (4, 4), (0, 4), (0, 0)],
                   [] ++ [[(1, 1), (2, 1), (2, 2), (1, 1)]]⟩)
      ≤ geodesic_area_m2
          (specGeodEnv (fun r => if r.length = 5 then 16 else 1) true)
          (.polygon ⟨[(0, 0), (4, 0), (4, 4), (0, 4), (0, 0)], []⟩) :=
  geodesic_area_hole_monotone (fun r => if r.length = 5 then 16 else 1) true
    [(0, 0), (4, 0), (4, 4), (0, 4), (0, 0)]
    [(1, 1), (2, 1), (2, 2), (1, 1)] [] (by simp)

/-- C7: when a placemark's geometry normalises to more than one polygon, the
emitted parcels are named with the placemark's (defaulted) display name, a
space, and the 1-based polygon index; when it normalises to exactly one, the
single parcel keeps the name unchanged. -/
theorem parcel_naming_suffix (env : Env) (st : PState) (pm : Feature) (geom : Geometry)
    (hg : pm.geometry = some geom) (ht : geomTruthy geom = true) :
    ((polygonish_geoms geom).length > 1 →
      ((step env st pm).paddocks).map Paddock.name
        = st.paddocks.map Paddock.name
          ++ (polygonish_geoms geom).enum.map
              (fun ip => pyOrStr pm.name "Unnamed paddock" ++ " " ++ toString (ip.1 + 1)))
    ∧ ((polygonish_geoms geom).length = 1 →
      ((step env st pm).paddocks).map Paddock.name
        = st.paddocks.map Paddock.name ++ [pyOrStr pm.name "Unnamed paddock"]) := by
  constructor
  · intro h1
    have hne : (polygonish_geoms geom).isEmpty = false := by
      cases hpg : polygonish_geoms geom with
      | nil => rw [hpg] at h1; simp at h1
      | cons a l => rfl
    unfold step
    rw [hg]
    simp only [ht, Bool.not_true, Bool.false_eq_true, if_false, hne,
      List.map_append]
    congr 1
    unfold placemarkParcels
    rw [List.map_map]
    refine List.map_congr_left ?_
    intro ip _
    simp only [Function.comp]
    rw [if_pos h1, ← String.append_assoc]
  · intro h1
    obtain ⟨p, hp⟩ := List.length_eq_one.mp h1
    have hne : (polygonish_geoms geom).isEmpty = false := by rw [hp]; rfl
    unfold step
    rw [hg]
    simp only [ht, Bool.not_true, Bool.false_eq_true, if_false, hne,
      List.map_append]
    congr 1
    unfold placemarkParcels
    rw [hp]
    simp only [List.enum, List.map_map]
    simp [Function.comp, String.append_empty]

theorem parcel_naming_suffix_witness :
    ((step env0 initPState pmBlock).paddocks).map Paddock.name = ["Block 1", "Block 2"] := by
  have h := (parcel_naming_suffix env0 initPState pmBlock
    (.multiPolygon [pBlockA, pBlockB]) rfl rfl).1 (by decide)
  simpa using h

theorem mem_polygonsFromPolyEl {env : Env} {nm : Option String} {poly_el : Xml}
    {r : Option String × SPolygon} (h : r ∈ polygonsFromPolyEl env nm poly_el) :
    r.1 = nm ∧ env.is_valid r.2 = true ∧ env.is_empty r.2 = false := by
  unfold polygonsFromPolyEl at h
  cases hf : findPath3 poly_el outerBoundaryTag linearRingTag coordinatesTag with
  | none => rw [hf] at h; simp at h
  | some outer_el =>
    rw [hf] at h
    cases htb : textNonBlank outer_el.text with
    | false => simp only [htb, Bool.not_false, if_true] at h; simp at h
    | true =>
      simp only [htb, Bool.not_true, Bool.false_eq_true, if_false] at h
      split at h
      case isTrue _ =>
        split at h
        case isTrue hcond =>
          simp only [List.mem_singleton] at h
          subst h
          obtain ⟨h1, h2⟩ := Bool.and_eq_true_iff.mp hcond
          exact ⟨rfl, h1, by simpa using h2⟩
        case isFalse _ => simp at h
      case isFalse _ => simp at h

theorem mem_placemarkPolys {env : Env} {pm : Xml} {r : Option String × SPolygon}
    (h : r ∈ placemarkPolys env pm) :
    r.1 = (match findChild pm nameTag with
           | some name_el => name_el.text
           | none => some "Unnamed paddock")
    ∧ env.is_valid r.2 = true ∧ env.is_empty r.2 = false := by
  unfold placemarkPolys at h
  rw [List.mem_flatMap] at h
  obtain ⟨pel, _, hr⟩ := h
  exact mem_polygonsFromPolyEl hr

theorem mem_xml_fallback {env : Env} {data : Bytes} {r : Option String × SPolygon}
    (h : r ∈ xml_fallback_extract_polygons env data) :
    env.is_valid r.2 = true ∧ env.is_empty r.2 = false := by
  unfold xml_fallback_extract_polygons at h
  dsimp only at h
  cases hbe : env.etFromBytes data with
  | ok root =>
    rw [hbe] at h
    rw [show (match Except.ok (ε := Unit) root with
        | .ok root => some root
        | .error _ => env.etFromDecoded data) = some root from rfl] at h
    rw [List.mem_flatMap] at h
    obtain ⟨pm, _, hr⟩ := h
    exact (mem_placemarkPolys hr).2
  | error u =>
    rw [hbe] at h
    rw [show (match Except.error (α := Xml) u with
        | .ok root => some root
        | .error _ => env.etFromDecoded data) = env.etFromDecoded data from rfl] at h
    cases hfd : env.etFromDecoded data with
    | none => rw [hfd] at h; simp at h
    | some root =>
      rw [hfd] at h
      rw [List.mem_flatMap] at h
      obtain ⟨pm, _, hr⟩ := h
      exact (mem_placemarkPolys hr).2

theorem step_single_polygon_name (env : Env) (st : PState) (pm : Feature)
    (geom : Geometry) (hg : pm.geometry = some geom) (ht : geomTruthy geom = true)
    (h1 : (polygonish_geoms geom).length = 1) :
    ((step env st pm).paddocks).map Paddock.name
      = st.paddocks.map Paddock.name ++ [pyOrStr pm.name "Unnamed paddock"] := by
  obtain ⟨p, hp⟩ := List.length_eq_one.mp h1
  have hne : (polygonish_geoms geom).isEmpty = false := by rw [hp]; rfl
  unfold step
  rw [hg]
  simp only [ht, Bool.not_true, Bool.false_eq_true, if_false, hne,
    List.map_append]
  congr 1
  unfold placemarkParcels
  rw [hp]
  simp only [List.enum, List.map_map]
  simp [Function.comp, String.append_empty]

/-- C9 (amended): a parcel from a primary-path placemark with an absent or
empty-string name is named with the fixed placeholder "Unnamed paddock" (shown
for single-polygon placemarks, where no index suffix applies); on the fallback
path, a Placemark with no `name` child also yields parcels carrying the same
placeholder, but a Placemark whose `name` element is present with no text
yields parcels named "Paddock {overall 1-based index}", a different
placeholder. -/
theorem placeholder_naming_amended (env : Env) :
    (∀ st pm geom, pm.geometry = some geom → geomTruthy geom = true →
        (pm.name = none ∨ pm.name = some "") → (polygonish_geoms geom).length = 1 →
        ((step env st pm).paddocks).map Paddock.name
          = st.paddocks.map Paddock.name ++ ["Unnamed paddock"])
    ∧ (∀ pm, findChild pm nameTag = none →
        ∀ r ∈ placemarkPolys env pm, r.1 = some "Unnamed paddock")
    ∧ (∀ idx poly, (fallbackPaddock env idx none poly).name
          = "Paddock " ++ toString (idx + 1))
    ∧ (fallbackPaddock env 0 none ⟨[], []⟩).name ≠ "Unnamed paddock" := by
  refine ⟨?_, ?_, ?_, ?_⟩
  · intro st pm geom hg ht hn h1
    rw [step_single_polygon_name env st pm geom hg ht h1]
    rcases hn with hn | hn <;> rw [hn] <;> rfl
  · intro pm hfc r hr
    have h := (mem_placemarkPolys hr).1
    rw [hfc] at h
    exact h
  · intro idx poly
    rfl
  · have hn : (fallbackPaddock env 0 none ⟨[], []⟩).name = "Paddock 1" := rfl
    rw [hn]
    decide

theorem placeholder_naming_amended_witness :
    List.map Paddock.name
      (step baseEnv initPState
        (Feature.mk (some (Geometry.polygon ⟨[(0, 0), (1, 0), (1, 1), (0, 0)], []⟩))
          none FAttrKind.absent [])).paddocks = ["Unnamed paddock"] := by
  have h := (placeholder_naming_amended baseEnv).1 initPState
    (Feature.mk (some (Geometry.polygon ⟨[(0, 0), (1, 0), (1, 1), (0, 0)], []⟩))
      none FAttrKind.absent [])
    (Geometry.polygon ⟨[(0, 0), (1, 0), (1, 1), (0, 0)], []⟩) rfl rfl (Or.inl rfl)
    (by decide)
  simpa using h

theorem walk_docEmpty : iter_placemarks docEmpty = ([], none) := by
  simp [iter_placemarks, iter_features, docEmpty, Feature.fkind, walkFeats]

/-- C9 (counterexample): running the import on a document whose structured
parse finds nothing while the raw XML holds one Placemark with an empty
`name` element and one triangle Polygon emits a parcel named "Paddock 1",
not the fixed placeholder "Unnamed paddock" that the claim requires for
every blank-named placemark. -/
theorem placeholder_naming_counterexample :
    (import_kml cenv9 "a.kml" []).toOption.map
        (fun out => out.paddocks.map Paddock.name) = some ["Paddock 1"]
    ∧ ("Paddock 1" : String) ≠ "Unnamed paddock" := by
  constructor
  · have hn : pyEndsWith (pyLower "a.kml") ".kml" = true := by decide
    simp only [import_kml, primaryState, walk_docEmpty, hn, cenv9, baseEnv]
    decide
  · decide

/-- C1: under a successful structured parse whose traversal raises nothing,
the fallback runs exactly when the primary loop imported zero parcels — then
the reported `imported` equals the fallback's polygon count (and the
provenance map records it) — while a non-zero primary import leaves the
summary's `geom_types`, `imported` and the persisted parcels exactly as the
primary loop accumulated them. -/
theorem fallback_runs_iff_primary_zero (env : Env) (filename : String) (data : Bytes)
    (doc : Feature)
    (hname : pyEndsWith (pyLower filename) ".kml" = true)
    (hdoc : env.fromString data = .ok doc)
    (hwalk : (iter_placemarks doc).2 = none) :
    ((primaryState env doc).imported = 0 →
        ∃ out, import_kml env filename data = .ok out
          ∧ out.summary.imported = (xml_fallback_extract_polygons env data).length
          ∧ out.summary.geom_types =
              [("Polygon", (xml_fallback_extract_polygons env data).length)])
    ∧ ((primaryState env doc).imported ≠ 0 →
        ∃ out, import_kml env filename data = .ok out
          ∧ out.summary.geom_types = (primaryState env doc).geom_type_counts
          ∧ out.summary.imported = (primaryState env doc).imported
          ∧ out.paddocks = (primaryState env doc).paddocks) := by
  unfold import_kml
  simp only [hname, Bool.not_true, Bool.false_eq_true, if_false, hdoc, hwalk]
  constructor
  · intro h0
    rw [if_pos h0]
    exact ⟨_, rfl, rfl, rfl⟩
  · intro h0
    rw [if_neg h0]
    exact ⟨_, rfl, rfl, rfl, rfl⟩

/-- C10: whenever the primary loop imported zero parcels (so the fallback
path builds the summary), the reported `geom_types` is exactly the singleton
map `Polygon ↦ imported` and `polygon_placemarks` equals `imported`, with
`imported` the fallback's polygon count — including when that count is zero,
so any counts the primary walk accumulated are discarded. -/
theorem fallback_summary_provenance (env : Env) (filename : String) (data : Bytes)
    (doc : Feature)
    (hname : pyEndsWith (pyLower filename) ".kml" = true)
    (hdoc : env.fromString data = .ok doc)
    (hwalk : (iter_placemarks doc).2 = none)
    (hzero : (primaryState env doc).imported = 0) :
    ∃ out, import_kml env filename data = .ok out
      ∧ out.summary.imported = (xml_fallback_extract_polygons env data).length
      ∧ out.summary.geom_types = [("Polygon", out.summary.imported)]
      ∧ out.summary.polygon_placemarks = out.summary.imported := by
  unfold import_kml
  simp only [hname, Bool.not_true, Bool.false_eq_true, if_false, hdoc, hwalk]
  rw [if_pos hzero]
  exact ⟨_, rfl, rfl, rfl, rfl⟩

/-- C2: provided the filename passes the extension check and the structured
parser's output containers enumerate without raising (as fastkml's do),
the import fails exactly when the structured parse fails, and then with the
client-input error carrying the parser's message; moreover every entry of the
(total, never-raising) fallback extractor is a constructed polygon that passed
the validity-and-non-emptiness filter, invalid or empty ones having been
dropped. -/
theorem import_error_iff_malformed (env : Env) (filename : String) (data : Bytes)
    (hname : pyEndsWith (pyLower filename) ".kml" = true)
    (hwalk : ∀ doc, env.fromString data = .ok doc → (iter_placemarks doc).2 = none) :
    ((∃ err, import_kml env filename data = .error err) ↔
        (∃ msg, env.fromString data = .error msg))
    ∧ (∀ msg, env.fromString data = .error msg →
        import_kml env filename data = .error (.badRequest ("Invalid KML: " ++ msg)))
    ∧ (∀ nm p, (nm, p) ∈ xml_fallback_extract_polygons env data →
        env.is_valid p = true ∧ env.is_empty p = false) := by
  have hsecond : ∀ msg, env.fromString data = .error msg →
      import_kml env filename data = .error (.badRequest ("Invalid KML: " ++ msg)) := by
    intro msg hmsg
    unfold import_kml
    simp only [hname, Bool.not_true, Bool.false_eq_true, if_false, hmsg]
  refine ⟨?_, hsecond, ?_⟩
  · constructor
    · rintro ⟨err, herr⟩
      cases hfs : env.fromString data with
      | error msg => exact ⟨msg, rfl⟩
      | ok doc =>
        exfalso
        unfold import_kml at herr
        simp only [hname, Bool.not_true, Bool.false_eq_true, if_false, hfs,
          hwalk doc hfs] at herr
        split at herr <;> simp at herr
    · rintro ⟨msg, hmsg⟩
      exact ⟨_, hsecond msg hmsg⟩
  · intro nm p hp
    exact mem_xml_fallback hp

theorem walk_docLine : iter_placemarks docLine = ([lineFeat], none) := by
  simp [iter_placemarks, iter_features, docLine, lineFeat, Feature.fkind,
    Feature.children, walkFeats, Feature.geometry]

theorem fallback_runs_iff_primary_zero_witness :
    ∃ out, import_kml env0 "a.kml" [] = .ok out
      ∧ out.summary.imported = (xml_fallback_extract_polygons env0 []).length
      ∧ out.summary.geom_types =
          [("Polygon", (xml_fallback_extract_polygons env0 []).length)] :=
  (fallback_runs_iff_primary_zero env0 "a.kml" [] docLine (by decide) rfl
    (by rw [walk_docLine])).1
    (by unfold primaryState; rw [walk_docLine]; decide)

theorem fallback_summary_provenance_witness :
    ∃ out, import_kml env0 "a.kml" [] = .ok out
      ∧ out.summary.imported = (xml_fallback_extract_polygons env0 []).length
      ∧ out.summary.geom_types = [("Polygon", out.summary.imported)]
      ∧ out.summary.polygon_placemarks = out.summary.imported :=
  fallback_summary_provenance env0 "a.kml" [] docLine (by decide) rfl
    (by rw [walk_docLine])
    (by unfold primaryState; rw [walk_docLine]; decide)

theorem import_error_iff_malformed_witness :
    ¬ ∃ err, import_kml env0 "a.kml" [] = .error err := by
  intro he
  have h := (import_error_iff_malformed env0 "a.kml" [] (by decide)
    (fun doc hdoc => by
      have h2 : (Except.ok docLine : Except String Feature) = .ok doc := hdoc
      injection h2 with h3
      rw [← h3, walk_docLine])).1.mp he
  obtain ⟨msg, hmsg⟩ := h
  exact Except.noConfusion
    (show (Except.ok docLine : Except String Feature) = .error msg from hmsg)
